import Mathlib

/-!
Verification of the profitability / gas-arbitration engine of the repository
(`utils/profitCalculator.js`: `calculateProfit`, `calculateOptimalBurn`,
`formatProfitData`).

Numeric embedding: the JavaScript code computes with IEEE doubles; following
the specification's own stance ("a plain 64-bit float is accepted by the
reference behavior ... a known limitation"), all arithmetic is embedded over
the exact rationals `ℚ`.  `ethers.formatUnits(balance, d)` followed by
`parseFloat` is embedded as exact division `balance / 10^d` (the decimal
string produced by `formatUnits` denotes exactly that rational).  Token
balances and wei amounts are unsigned integers (`ℕ`).  A missing (`undefined`)
`price` is normalized to `0` by the data-fetch layer
(`price: prices[addr] || 0` in the server) before reaching the engine, so
`price : ℚ` with `0` standing for "0 or missing"; likewise a missing
`decimals` is represented by `0`, which the code treats identically to `0`
via `token.decimals || 18`.
-/

/-- A token balance record as supplied to the engine:
`{address, symbol, balance (smallest unit), decimals, price (USD)}`. -/
structure Token where
  address : String
  symbol : String
  balance : ℕ
  decimals : ℕ
  price : ℚ
deriving DecidableEq, Repr

/-- An entry of `optimalTokens` (the claimable list): the spread token plus
the derived fields pushed at lines 42-47 of `calculateProfit`. -/
structure OptimalToken where
  token : Token
  balanceEth : ℚ
  valueUSD : ℚ
  netValueUSD : ℚ
deriving DecidableEq, Repr

/-- An entry of `dustTokens`: the spread token plus the derived fields pushed
at lines 50-55 of `calculateProfit`. -/
structure DustToken where
  token : Token
  balanceEth : ℚ
  valueUSD : ℚ
  costToClaimUSD : ℚ
deriving DecidableEq, Repr

/-- The record returned by `calculateProfit` (lines 72-89). -/
structure ProfitResult where
  uniAmount : ℚ
  uniCostUSD : ℚ
  totalJarValueUSD : ℚ
  gasCostUSD : ℚ
  grossProfit : ℚ
  netProfit : ℚ
  profitPercentage : ℚ
  minimumOutputUSD : ℚ
  isProfitable : Bool
  meetsThreshold : Bool
  tokenBreakdown : List OptimalToken
  dustTokens : List DustToken
  estimatedGas : ℕ
  allTokensCount : ℕ
  filteredCount : ℕ
  savedGasUSD : ℚ
deriving DecidableEq, Repr

/-- `TRANSFER_GAS_COST = 60000` — approx gas per token transfer. -/
def TRANSFER_GAS_COST : ℕ := 60000

/-- `BASE_GAS_COST = 100000` — approx base gas for the transaction. -/
def BASE_GAS_COST : ℕ := 100000

/-- `SECURITY.DEFAULT_SLIPPAGE_TOLERANCE = 0.5` (percent), from
`contracts/constants.js`. -/
def DEFAULT_SLIPPAGE_TOLERANCE : ℚ := 1 / 2

/-- Line 28 of `calculateProfit`:
`(jarTokens.find(t => t.symbol === 'WETH')?.price || 2000)`.
`find` returns the first match; `|| 2000` replaces a falsy price (`0`,
or `undefined` when no WETH token exists) by the fallback `2000`. -/
def ethPriceOf (jarTokens : List Token) : ℚ :=
  match jarTokens.find? (fun t => t.symbol == "WETH") with
  | some t => if t.price = 0 then 2000 else t.price
  | none => 2000

/-- Line 38: `parseFloat(ethers.formatUnits(token.balance, token.decimals || 18))`. -/
def balanceEthOf (t : Token) : ℚ :=
  (t.balance : ℚ) / 10 ^ (if t.decimals = 0 then 18 else t.decimals)

/-- Line 39: `valueUSD = balanceEth * token.price`. -/
def valueUSDOf (t : Token) : ℚ :=
  balanceEthOf t * t.price

/-- Lines 29-30: `transferCostUSD = (TRANSFER_GAS_COST * gasPriceEth) * ethPrice`
with `gasPriceEth = gasPrice / 1e9`. -/
def transferCostUSDOf (jarTokens : List Token) (gasPrice : ℚ) : ℚ :=
  (TRANSFER_GAS_COST : ℚ) * (gasPrice / 10 ^ 9) * ethPriceOf jarTokens

/-- The token-classification loop of `calculateProfit` (lines 33-57), as a
structural recursion preserving the push order.  Returns
`(optimalTokens, dustTokens, optimizedJarValueUSD)`. -/
def filterTokens (transferCostUSD : ℚ) :
    List Token → List OptimalToken × List DustToken × ℚ
  | [] => ([], [], 0)
  | token :: rest =>
    let balanceEth := balanceEthOf token
    let valueUSD := balanceEth * token.price
    let r := filterTokens transferCostUSD rest
    if valueUSD > transferCostUSD then
      (⟨token, balanceEth, valueUSD, valueUSD - transferCostUSD⟩ :: r.1,
       r.2.1, valueUSD + r.2.2)
    else
      (r.1, ⟨token, balanceEth, valueUSD, transferCostUSD⟩ :: r.2.1, r.2.2)

/-- `calculateProfit(uniAmount, uniPrice, jarTokens, threshold, gasPrice)`
(lines 18-90).  `uniAmount` and `threshold` are wei amounts (`ℕ`),
`gasPrice` is in gwei.  The source function is declared `async` but
contains no `await`, so it returns a Promise that resolves immediately;
this definition is that resolved record.  (The one place the Promise
itself matters — `calculateOptimalBurn` spreading it without `await` — is
modeled at that definition.) -/
def calculateProfit (uniAmount : ℕ) (uniPrice : ℚ) (jarTokens : List Token)
    (threshold : ℕ) (gasPrice : ℚ) : ProfitResult :=
  let uniAmountEth : ℚ := (uniAmount : ℚ) / 10 ^ 18
  let thresholdEth : ℚ := (threshold : ℚ) / 10 ^ 18
  let uniCostUSD := uniAmountEth * uniPrice
  let ethPrice := ethPriceOf jarTokens
  let transferCostUSD := transferCostUSDOf jarTokens gasPrice
  let r := filterTokens transferCostUSD jarTokens
  let optimalTokens := r.1
  let dustTokens := r.2.1
  let optimizedJarValueUSD := r.2.2
  let estimatedGas : ℕ := BASE_GAS_COST + optimalTokens.length * TRANSFER_GAS_COST
  let totalGasCostEth := ((estimatedGas : ℚ) * gasPrice) / 10 ^ 9
  let totalGasCostUSD := totalGasCostEth * ethPrice
  let grossProfit := optimizedJarValueUSD - uniCostUSD
  let netProfit := grossProfit - totalGasCostUSD
  let profitPercentage := if uniCostUSD > 0 then netProfit / uniCostUSD * 100 else 0
  let minimumOutputUSD := optimizedJarValueUSD * (1 - DEFAULT_SLIPPAGE_TOLERANCE / 100)
  { uniAmount := uniAmountEth
    uniCostUSD := uniCostUSD
    totalJarValueUSD := optimizedJarValueUSD
    gasCostUSD := totalGasCostUSD
    grossProfit := grossProfit
    netProfit := netProfit
    profitPercentage := profitPercentage
    minimumOutputUSD := minimumOutputUSD
    isProfitable := decide (netProfit > 0)
    meetsThreshold := decide (uniAmountEth ≥ thresholdEth)
    tokenBreakdown := optimalTokens
    dustTokens := dustTokens
    estimatedGas := estimatedGas
    allTokensCount := jarTokens.length
    filteredCount := dustTokens.length
    savedGasUSD := (dustTokens.length : ℚ) * transferCostUSD }

/-- The record actually returned by `calculateOptimalBurn` (lines 115-119).
`calculateProfit` is declared `async` (line 18), its call at line 107 is
not awaited, and the object spread `...profit` at line 118 copies the own
enumerable properties of the resulting pending Promise — of which there
are none.  The returned object therefore carries only the two burn fields
and none of the profit fields (in particular no `meetsThreshold`). -/
structure OptimalBurnResult where
  optimalBurnAmount : ℚ
  optimalBurnWei : ℕ
deriving DecidableEq, Repr

/-- `calculateOptimalBurn(jarTokens, uniPrice, threshold, gasPrice)`
(lines 100-120): the burn amount is fixed to the threshold; the intended
spread of the `calculateProfit` result is lost because the Promise is
spread without `await` (see `OptimalBurnResult`), so only the burn fields
are returned.  The value the discarded Promise resolves to is
`calculateOptimalBurnProfit` below. -/
def calculateOptimalBurn (jarTokens : List Token) (uniPrice : ℚ)
    (threshold : ℕ) (gasPrice : ℚ) : OptimalBurnResult :=
  let thresholdEth : ℚ := (threshold : ℚ) / 10 ^ 18
  let optimalBurnWei := threshold
  let _profit := calculateProfit optimalBurnWei uniPrice jarTokens threshold gasPrice
  { optimalBurnAmount := thresholdEth
    optimalBurnWei := optimalBurnWei }

/-- The value the Promise built at lines 107-113 of `calculateOptimalBurn`
resolves to: the `calculateProfit` record at the fixed threshold burn
amount.  This is what the spread at line 118 was meant to attach to the
result (and what the function's own doc comment, "Optimal burn amount and
expected profit", promises), but fails to. -/
def calculateOptimalBurnProfit (jarTokens : List Token) (uniPrice : ℚ)
    (threshold : ℕ) (gasPrice : ℚ) : ProfitResult :=
  calculateProfit threshold uniPrice jarTokens threshold gasPrice

/-- Fixed-point rendering of a natural number `n` interpreted as `n / 10^f`,
with exactly `f` digits after the decimal point (zero-padded). -/
def natFixed (f : ℕ) (n : ℕ) : String :=
  if f = 0 then Nat.repr n
  else
    let fracStr := Nat.repr (n % 10 ^ f)
    let pad := String.mk (List.replicate (f - fracStr.length) '0')
    Nat.repr (n / 10 ^ f) ++ "." ++ pad ++ fracStr

/-- JavaScript `Number.prototype.toFixed(f)` on an exact rational: the sign
is extracted first, then the magnitude is rounded to the nearest multiple of
`10^(-f)` with ties away from zero (ES `ToFixed` picks the larger candidate
after the sign extraction). -/
def jsToFixed (f : ℕ) (q : ℚ) : String :=
  (if q < 0 then "-" else "") ++ natFixed f (⌊|q| * 10 ^ f + 1 / 2⌋).toNat

/-- An entry of the formatted `tokenBreakdown` (lines 139-144). -/
structure FormattedToken where
  address : String
  symbol : String
  balance : String
  valueUSD : String
deriving DecidableEq, Repr

/-- The record returned by `formatProfitData` (lines 128-148). -/
structure FormattedProfitData where
  uniAmount : String
  uniCostUSD : String
  totalJarValueUSD : String
  gasCostUSD : String
  grossProfit : String
  netProfit : String
  profitPercentage : String
  minimumOutputUSD : String
  isProfitable : Bool
  meetsThreshold : Bool
  tokenBreakdown : List FormattedToken
  dustCount : ℕ
  savedGas : String
  filtered : Bool
deriving DecidableEq, Repr

/-- `formatProfitData(profitData)` (lines 127-149). -/
def formatProfitData (p : ProfitResult) : FormattedProfitData :=
  { uniAmount := jsToFixed 2 p.uniAmount
    uniCostUSD := "$" ++ jsToFixed 2 p.uniCostUSD
    totalJarValueUSD := "$" ++ jsToFixed 2 p.totalJarValueUSD
    gasCostUSD := "$" ++ jsToFixed 2 p.gasCostUSD
    grossProfit := "$" ++ jsToFixed 2 p.grossProfit
    netProfit := "$" ++ jsToFixed 2 p.netProfit
    profitPercentage := jsToFixed 2 p.profitPercentage ++ "%"
    minimumOutputUSD := "$" ++ jsToFixed 2 p.minimumOutputUSD
    isProfitable := p.isProfitable
    meetsThreshold := p.meetsThreshold
    tokenBreakdown := p.tokenBreakdown.map fun t =>
      { address := t.token.address
        symbol := t.token.symbol
        balance := jsToFixed 6 t.balanceEth
        valueUSD := "$" ++ jsToFixed 2 t.valueUSD }
    dustCount := p.filteredCount
    savedGas := "$" ++ jsToFixed 2 p.savedGasUSD
    filtered := decide (p.filteredCount > 0) }

/-! ## Sample inputs used as concrete instances -/

/-- A USDC-like token: 500 whole units at one dollar. -/
def sampleUSDC : Token := ⟨"0xa0b8", "USDC", 500 * 10 ^ 6, 6, 1⟩

/-- A WETH token with one whole unit at price `p`: its `price` field doubles
as the engine's ETH price source. -/
def sampleWETH (p : ℚ) : Token := ⟨"0xc02a", "WETH", 10 ^ 18, 18, p⟩

/-- A dust token: a negligible balance at a negligible price. -/
def sampleDUST : Token := ⟨"0xd0d0", "DUST", 1, 18, 1 / 1000000⟩

/-- A zero-decimals token with a two-unit balance at one dollar. -/
def sampleZeroDec : Token := ⟨"0xt0c0", "TOK", 2, 0, 1⟩

/-- A token with a zero (or missing, normalized to zero) price and a huge
balance. -/
def sampleZeroPrice : Token := ⟨"0xbeef", "MYST", 10 ^ 30, 18, 0⟩

/-! ## Characterization lemmas for the classification loop -/

theorem valueUSDOf_def (t : Token) : balanceEthOf t * t.price = valueUSDOf t := rfl

theorem filterTokens_opt_map (c : ℚ) (l : List Token) :
    ((filterTokens c l).1).map OptimalToken.token
      = l.filter (fun t => valueUSDOf t > c) := by
  induction l with
  | nil => rfl
  | cons t rest ih =>
    by_cases h : valueUSDOf t > c <;>
      simp [filterTokens, valueUSDOf_def, List.filter_cons, h, ih]

theorem filterTokens_dust_map (c : ℚ) (l : List Token) :
    ((filterTokens c l).2.1).map DustToken.token
      = l.filter (fun t => ¬(valueUSDOf t > c)) := by
  induction l with
  | nil => rfl
  | cons t rest ih =>
    by_cases h : valueUSDOf t > c
    · simp [filterTokens, valueUSDOf_def, List.filter_cons, h, ih]
    · simp [filterTokens, valueUSDOf_def, List.filter_cons, h, ih, not_lt.mp h]

theorem filterTokens_sum (c : ℚ) (l : List Token) :
    (filterTokens c l).2.2
      = ((l.filter (fun t => valueUSDOf t > c)).map valueUSDOf).sum := by
  induction l with
  | nil => rfl
  | cons t rest ih =>
    by_cases h : valueUSDOf t > c <;>
      simp [filterTokens, valueUSDOf_def, List.filter_cons, h, ih]

theorem filterTokens_opt_length (c : ℚ) (l : List Token) :
    (filterTokens c l).1.length = (l.filter (fun t => valueUSDOf t > c)).length := by
  rw [← filterTokens_opt_map c l, List.length_map]

theorem filterTokens_dust_length (c : ℚ) (l : List Token) :
    (filterTokens c l).2.1.length
      = (l.filter (fun t => ¬(valueUSDOf t > c))).length := by
  rw [← filterTokens_dust_map c l, List.length_map]

theorem filterTokens_length (c : ℚ) (l : List Token) :
    (filterTokens c l).1.length + (filterTokens c l).2.1.length = l.length := by
  induction l with
  | nil => rfl
  | cons t rest ih =>
    by_cases h : valueUSDOf t > c <;>
      simp [filterTokens, valueUSDOf_def, h] <;> omega

theorem filterTokens_count (c : ℚ) (l : List Token) (t : Token) :
    (((filterTokens c l).1).map OptimalToken.token).count t
      + (((filterTokens c l).2.1).map DustToken.token).count t = l.count t := by
  induction l with
  | nil => rfl
  | cons a rest ih =>
    by_cases h : valueUSDOf a > c <;>
      simp [filterTokens, valueUSDOf_def, h, List.count_cons] <;> omega

/-! ## Projection lemmas for `calculateProfit` -/

theorem calculateProfit_tokenBreakdown (u : ℕ) (p : ℚ) (toks : List Token)
    (th : ℕ) (g : ℚ) :
    (calculateProfit u p toks th g).tokenBreakdown
      = (filterTokens (transferCostUSDOf toks g) toks).1 := rfl

theorem calculateProfit_dustTokens (u : ℕ) (p : ℚ) (toks : List Token)
    (th : ℕ) (g : ℚ) :
    (calculateProfit u p toks th g).dustTokens
      = (filterTokens (transferCostUSDOf toks g) toks).2.1 := rfl

theorem calculateProfit_totalJarValueUSD (u : ℕ) (p : ℚ) (toks : List Token)
    (th : ℕ) (g : ℚ) :
    (calculateProfit u p toks th g).totalJarValueUSD
      = ((toks.filter (fun t => valueUSDOf t > transferCostUSDOf toks g)).map
          valueUSDOf).sum := by
  rw [show (calculateProfit u p toks th g).totalJarValueUSD
      = (filterTokens (transferCostUSDOf toks g) toks).2.2 from rfl, filterTokens_sum]

theorem calculateProfit_netProfit (u : ℕ) (p : ℚ) (toks : List Token)
    (th : ℕ) (g : ℚ) :
    (calculateProfit u p toks th g).netProfit
      = ((toks.filter (fun t => valueUSDOf t > transferCostUSDOf toks g)).map
          valueUSDOf).sum
        - (u : ℚ) / 10 ^ 18 * p
        - ((BASE_GAS_COST
            + (toks.filter (fun t =>
                valueUSDOf t > transferCostUSDOf toks g)).length
              * TRANSFER_GAS_COST : ℕ) : ℚ)
          * g / 10 ^ 9 * ethPriceOf toks := by
  show (filterTokens (transferCostUSDOf toks g) toks).2.2 - (u : ℚ) / 10 ^ 18 * p
      - ((BASE_GAS_COST
          + (filterTokens (transferCostUSDOf toks g) toks).1.length
            * TRANSFER_GAS_COST : ℕ) : ℚ) * g / 10 ^ 9 * ethPriceOf toks = _
  rw [filterTokens_sum, filterTokens_opt_length]

/-! ## Lemmas about the ETH price lookup -/

theorem find?_weth_middle (pre post : List Token) (t t' : Token)
    (hsym : t'.symbol = t.symbol) (hw : t.symbol ≠ "WETH") :
    (pre ++ t' :: post).find? (fun x => x.symbol == "WETH")
      = (pre ++ t :: post).find? (fun x => x.symbol == "WETH") := by
  induction pre with
  | nil => simp [List.find?_cons, hsym, hw]
  | cons a pre ih =>
    cases h : (a.symbol == "WETH") <;> simp [List.find?_cons, h, ih]

theorem ethPriceOf_middle (pre post : List Token) (t t' : Token)
    (hsym : t'.symbol = t.symbol) (hw : t.symbol ≠ "WETH") :
    ethPriceOf (pre ++ t' :: post) = ethPriceOf (pre ++ t :: post) := by
  unfold ethPriceOf
  rw [find?_weth_middle pre post t t' hsym hw]

theorem ethPriceOf_nonneg (toks : List Token) (h : ∀ x ∈ toks, 0 ≤ x.price) :
    0 ≤ ethPriceOf toks := by
  unfold ethPriceOf
  cases hf : toks.find? (fun x => x.symbol == "WETH") with
  | none => norm_num
  | some x =>
    have hx : 0 ≤ x.price := h x (List.mem_of_find?_eq_some hf)
    by_cases hz : x.price = 0 <;> simp [hz, hx]

theorem balanceEthOf_nonneg (t : Token) : 0 ≤ balanceEthOf t :=
  div_nonneg (Nat.cast_nonneg _) (pow_nonneg (by norm_num) _)

/-! ## Further projection lemmas -/

theorem calculateProfit_estimatedGas (u : ℕ) (p : ℚ) (toks : List Token)
    (th : ℕ) (g : ℚ) :
    (calculateProfit u p toks th g).estimatedGas
      = BASE_GAS_COST
        + (filterTokens (transferCostUSDOf toks g) toks).1.length
          * TRANSFER_GAS_COST := rfl

theorem calculateProfit_gasCostUSD (u : ℕ) (p : ℚ) (toks : List Token)
    (th : ℕ) (g : ℚ) :
    (calculateProfit u p toks th g).gasCostUSD
      = (((calculateProfit u p toks th g).estimatedGas : ℚ) * g) / 10 ^ 9
        * ethPriceOf toks := rfl

/-! ## Claim theorems -/

/-- C1, counterexample: the claim computes `valueUsd` as
`balance / 10^decimals * price`, but the code divides by `10^18` whenever
`decimals` is `0` (the `token.decimals || 18` default).  For a zero-decimals
token with balance 2, price 1 USD, and a per-transfer cost of 1 USD, the
claim predicts `claimable` (`2 > 1`), yet the code places the token in
`dust`. -/
theorem c1_counterexample :
    ((sampleZeroDec.balance : ℚ) / 10 ^ sampleZeroDec.decimals * sampleZeroDec.price
        > transferCostUSDOf [sampleZeroDec] (25 / 3))
      ∧ (calculateProfit 0 0 [sampleZeroDec] 0 (25 / 3)).tokenBreakdown = []
      ∧ ((calculateProfit 0 0 [sampleZeroDec] 0 (25 / 3)).dustTokens.map DustToken.token)
          = [sampleZeroDec] := by
  refine ⟨?_, ?_, ?_⟩ <;>
    simp +decide [sampleZeroDec, calculateProfit, filterTokens, transferCostUSDOf,
      ethPriceOf, balanceEthOf, TRANSFER_GAS_COST, BASE_GAS_COST] <;> norm_num

/-- C1 (amended): a token is placed in the claimable output sequence iff its
`valueUsd` — computed as `balance / 10^e * price` where `e` is `decimals`
except that `e = 18` when `decimals` is zero or missing — is strictly greater
than the per-transfer cost, and otherwise (in particular at exact equality)
it is placed in dust. -/
theorem c1_classification (uniAmount : ℕ) (uniPrice : ℚ) (jarTokens : List Token)
    (threshold : ℕ) (gasPrice : ℚ) (t : Token) (ht : t ∈ jarTokens) :
    (t ∈ ((calculateProfit uniAmount uniPrice jarTokens threshold
          gasPrice).tokenBreakdown.map OptimalToken.token)
        ↔ valueUSDOf t > transferCostUSDOf jarTokens gasPrice)
      ∧ (t ∈ ((calculateProfit uniAmount uniPrice jarTokens threshold
          gasPrice).dustTokens.map DustToken.token)
        ↔ ¬(valueUSDOf t > transferCostUSDOf jarTokens gasPrice)) := by
  rw [calculateProfit_tokenBreakdown, calculateProfit_dustTokens,
    filterTokens_opt_map, filterTokens_dust_map]
  constructor <;> simp [List.mem_filter, ht]

/-- Witness for C1 (amended) at a concrete input: the sample USDC token is
claimable (value 500 dollars against a 2.40-dollar transfer cost). -/
theorem c1_classification_witness :
    sampleUSDC ∈ ((calculateProfit 0 0 [sampleUSDC] 0 20).tokenBreakdown.map
      OptimalToken.token) :=
  (c1_classification 0 0 [sampleUSDC] 0 20 sampleUSDC (by simp)).1.mpr (by
    simp +decide [sampleUSDC, valueUSDOf, balanceEthOf, transferCostUSDOf,
      ethPriceOf, TRANSFER_GAS_COST]
    norm_num)

/-- C2: the claimable and dust sequences partition the input exactly — the
lengths add up to the input length, every token occurs in the two outputs as
often as in the input (no token dropped or duplicated), and no token occurs
in both. -/
theorem c2_partition (uniAmount : ℕ) (uniPrice : ℚ) (jarTokens : List Token)
    (threshold : ℕ) (gasPrice : ℚ) :
    ((calculateProfit uniAmount uniPrice jarTokens threshold
        gasPrice).tokenBreakdown.length
      + (calculateProfit uniAmount uniPrice jarTokens threshold
          gasPrice).dustTokens.length = jarTokens.length)
    ∧ ∀ t : Token,
        (((calculateProfit uniAmount uniPrice jarTokens threshold
            gasPrice).tokenBreakdown.map OptimalToken.token).count t
          + ((calculateProfit uniAmount uniPrice jarTokens threshold
              gasPrice).dustTokens.map DustToken.token).count t
          = jarTokens.count t)
        ∧ (t ∈ ((calculateProfit uniAmount uniPrice jarTokens threshold
            gasPrice).tokenBreakdown.map OptimalToken.token)
          → t ∉ ((calculateProfit uniAmount uniPrice jarTokens threshold
              gasPrice).dustTokens.map DustToken.token)) := by
  rw [calculateProfit_tokenBreakdown, calculateProfit_dustTokens]
  refine ⟨filterTokens_length _ _, fun t => ⟨filterTokens_count _ _ t, ?_⟩⟩
  rw [filterTokens_opt_map, filterTokens_dust_map]
  intro hmem
  simp only [List.mem_filter, decide_eq_true_eq] at hmem ⊢
  intro hcontra
  exact absurd hmem.2 hcontra.2

/-- Witness for C2 at a concrete input: with one claimable and one dust
token the lengths add up, and the claimable token is absent from dust. -/
theorem c2_partition_witness :
    ((calculateProfit 0 0 [sampleUSDC, sampleDUST] 0 20).tokenBreakdown.length
      + (calculateProfit 0 0 [sampleUSDC, sampleDUST] 0 20).dustTokens.length
      = 2)
    ∧ sampleUSDC ∉ ((calculateProfit 0 0 [sampleUSDC, sampleDUST] 0
        20).dustTokens.map DustToken.token) := by
  refine ⟨(c2_partition 0 0 [sampleUSDC, sampleDUST] 0 20).1,
    ((c2_partition 0 0 [sampleUSDC, sampleDUST] 0 20).2 sampleUSDC).2 ?_⟩
  simp +decide [sampleUSDC, sampleDUST, calculateProfit, filterTokens,
    transferCostUSDOf, ethPriceOf, balanceEthOf, TRANSFER_GAS_COST]
  norm_num

/-- C3, code bug: the Selector cannot return `meetsThreshold = true`,
because its result carries no `meetsThreshold` field at all — the `async`
`calculateProfit` is called without `await` at line 107 and the spread of
the pending Promise at line 118 copies nothing, so the entire result is
the two burn fields, as this evaluation at a concrete input shows
(`OptimalBurnResult` has no other field).  The resolved profit record the
spread was meant to attach does satisfy the claimed invariant: its
whole-unit amount equals the threshold's and its `meetsThreshold` is
`true`, confirming the claim describes the intent and the missing `await`
is the slip. -/
theorem c3_promise_spread_bug :
    (calculateOptimalBurn [sampleUSDC] 5 (4000 * 10 ^ 18) 20
        = { optimalBurnAmount := 4000, optimalBurnWei := 4000 * 10 ^ 18 })
      ∧ ((calculateOptimalBurnProfit [sampleUSDC] 5 (4000 * 10 ^ 18)
          20).uniAmount = ((4000 * 10 ^ 18 : ℕ) : ℚ) / 10 ^ 18)
      ∧ ((calculateOptimalBurnProfit [sampleUSDC] 5 (4000 * 10 ^ 18)
          20).meetsThreshold = true) := by
  refine ⟨?_, rfl, ?_⟩
  · simp only [calculateOptimalBurn, OptimalBurnResult.mk.injEq]
    norm_num
  · simp [calculateOptimalBurnProfit, calculateProfit]

/-- C5: the estimated gas units equal `BASE_GAS_COST` plus the number of
claimable (filtered) tokens times `TRANSFER_GAS_COST`, and `gasCostUsd`
equals those units times `gasPrice / 1e9` times the ETH USD price. -/
theorem c5_gas_from_filtered (uniAmount : ℕ) (uniPrice : ℚ)
    (jarTokens : List Token) (threshold : ℕ) (gasPrice : ℚ) :
    ((calculateProfit uniAmount uniPrice jarTokens threshold
        gasPrice).estimatedGas
      = BASE_GAS_COST
        + (calculateProfit uniAmount uniPrice jarTokens threshold
            gasPrice).tokenBreakdown.length * TRANSFER_GAS_COST)
    ∧ ((calculateProfit uniAmount uniPrice jarTokens threshold
        gasPrice).gasCostUSD
      = ((calculateProfit uniAmount uniPrice jarTokens threshold
          gasPrice).estimatedGas : ℚ) * (gasPrice / 10 ^ 9)
        * ethPriceOf jarTokens) := by
  refine ⟨rfl, ?_⟩
  rw [calculateProfit_gasCostUSD]
  ring

/-- C4, counterexample: the ETH price that scales every gas cost is read
from the WETH token itself, so raising the price of a claimable WETH token
raises the per-transfer cost and the total gas cost; here it knocks the
USDC token out of the claimable set and the net profit drops from -0.2 to
-1.2 dollars. -/
theorem c4_counterexample :
    sampleWETH 1 ∈ ((calculateProfit 0 0 [sampleWETH 1, sampleUSDC] 0
        10000).tokenBreakdown.map OptimalToken.token)
      ∧ (sampleWETH 1).price ≤ (sampleWETH 2).price
      ∧ (calculateProfit 0 0 [sampleWETH 2, sampleUSDC] 0 10000).netProfit
          < (calculateProfit 0 0 [sampleWETH 1, sampleUSDC] 0 10000).netProfit := by
  refine ⟨?_, ?_, ?_⟩ <;>
    simp +decide [sampleWETH, sampleUSDC, calculateProfit, filterTokens,
      transferCostUSDOf, ethPriceOf, balanceEthOf, TRANSFER_GAS_COST,
      BASE_GAS_COST] <;> norm_num

/-- C4 (amended): increasing the price of a claimable token whose symbol is
not WETH (i.e. a token that is not the engine's ETH-price source), holding
every other input field fixed, never decreases `netProfit`. -/
theorem c4_profit_monotone (pre post : List Token) (t : Token) (p' : ℚ)
    (hw : t.symbol ≠ "WETH") (hp : t.price ≤ p') (uniAmount : ℕ)
    (uniPrice : ℚ) (threshold : ℕ) (gasPrice : ℚ)
    (hc : valueUSDOf t > transferCostUSDOf (pre ++ t :: post) gasPrice) :
    (calculateProfit uniAmount uniPrice (pre ++ t :: post) threshold
        gasPrice).netProfit
      ≤ (calculateProfit uniAmount uniPrice
          (pre ++ { t with price := p' } :: post) threshold
          gasPrice).netProfit := by
  have hE : ethPriceOf (pre ++ { t with price := p' } :: post)
      = ethPriceOf (pre ++ t :: post) :=
    ethPriceOf_middle pre post t _ rfl hw
  have hcost : transferCostUSDOf (pre ++ { t with price := p' } :: post) gasPrice
      = transferCostUSDOf (pre ++ t :: post) gasPrice := by
    unfold transferCostUSDOf
    rw [hE]
  have hv : valueUSDOf t ≤ valueUSDOf { t with price := p' } := by
    unfold valueUSDOf
    exact mul_le_mul_of_nonneg_left hp (balanceEthOf_nonneg t)
  have hc' : valueUSDOf { t with price := p' }
      > transferCostUSDOf (pre ++ t :: post) gasPrice := lt_of_lt_of_le hc hv
  rw [calculateProfit_netProfit, calculateProfit_netProfit]
  simp only [hcost, hE, List.filter_append, List.filter_cons, hc, hc',
    decide_True, if_true, List.map_append, List.sum_append, List.map_cons,
    List.sum_cons, List.length_append, List.length_cons]
  linarith [hv]

/-- Witness for C4 (amended) at a concrete input: raising the claimable
non-WETH USDC token's price from 1 to 2 dollars does not decrease net
profit. -/
theorem c4_profit_monotone_witness :
    (calculateProfit 0 0 [sampleUSDC] 0 20).netProfit
      ≤ (calculateProfit 0 0 [{ sampleUSDC with price := 2 }] 0 20).netProfit :=
  c4_profit_monotone [] [] sampleUSDC 2 (by simp [sampleUSDC]) (by norm_num [sampleUSDC])
    0 0 0 20 (by
      simp +decide [sampleUSDC, valueUSDOf, balanceEthOf, transferCostUSDOf,
        ethPriceOf, TRANSFER_GAS_COST]
      norm_num)

theorem calculateProfit_grossProfit (u : ℕ) (p : ℚ) (toks : List Token)
    (th : ℕ) (g : ℚ) :
    (calculateProfit u p toks th g).grossProfit
      = ((toks.filter (fun t => valueUSDOf t > transferCostUSDOf toks g)).map
          valueUSDOf).sum - (u : ℚ) / 10 ^ 18 * p := by
  show (filterTokens (transferCostUSDOf toks g) toks).2.2
      - (u : ℚ) / 10 ^ 18 * p = _
  rw [filterTokens_sum]

theorem calculateProfit_isProfitable (u : ℕ) (p : ℚ) (toks : List Token)
    (th : ℕ) (g : ℚ) :
    (calculateProfit u p toks th g).isProfitable
      = decide ((calculateProfit u p toks th g).netProfit > 0) := rfl

theorem transferCostUSDOf_nonneg (toks : List Token) (g : ℚ) (hg : 0 ≤ g)
    (hpx : ∀ x ∈ toks, 0 ≤ x.price) : 0 ≤ transferCostUSDOf toks g :=
  mul_nonneg (mul_nonneg (by norm_num) (div_nonneg hg (by norm_num)))
    (ethPriceOf_nonneg toks hpx)

/-- C6: on any valid input (non-negative resource price, gas price and token
prices) whose claimable set comes out empty, the calculator returns a
well-formed result with `claimableValueUsd = 0`,
`grossProfit = -resourceCostUsd`,
`netProfit = -resourceCostUsd - baseGasCostUsd` and `isProfitable = false`
(the function is total, so no exception can occur). -/
theorem c6_empty_claimable (uniAmount : ℕ) (uniPrice : ℚ)
    (jarTokens : List Token) (threshold : ℕ) (gasPrice : ℚ)
    (hempty : (calculateProfit uniAmount uniPrice jarTokens threshold
        gasPrice).tokenBreakdown = [])
    (hup : 0 ≤ uniPrice) (hg : 0 ≤ gasPrice)
    (hpx : ∀ x ∈ jarTokens, 0 ≤ x.price) :
    ((calculateProfit uniAmount uniPrice jarTokens threshold
        gasPrice).totalJarValueUSD = 0)
      ∧ ((calculateProfit uniAmount uniPrice jarTokens threshold
          gasPrice).grossProfit = -((uniAmount : ℚ) / 10 ^ 18 * uniPrice))
      ∧ ((calculateProfit uniAmount uniPrice jarTokens threshold
          gasPrice).netProfit
        = -((uniAmount : ℚ) / 10 ^ 18 * uniPrice)
          - (BASE_GAS_COST : ℚ) * (gasPrice / 10 ^ 9) * ethPriceOf jarTokens)
      ∧ ((calculateProfit uniAmount uniPrice jarTokens threshold
          gasPrice).isProfitable = false) := by
  rw [calculateProfit_tokenBreakdown] at hempty
  have hfil : jarTokens.filter
      (fun t => valueUSDOf t > transferCostUSDOf jarTokens gasPrice) = [] := by
    rw [← filterTokens_opt_map, hempty]
    rfl
  have hnet : (calculateProfit uniAmount uniPrice jarTokens threshold
      gasPrice).netProfit
      = -((uniAmount : ℚ) / 10 ^ 18 * uniPrice)
        - (BASE_GAS_COST : ℚ) * (gasPrice / 10 ^ 9) * ethPriceOf jarTokens := by
    rw [calculateProfit_netProfit, hfil]
    simp only [List.map_nil, List.sum_nil, List.length_nil]
    push_cast
    ring
  have hX : 0 ≤ (uniAmount : ℚ) / 10 ^ 18 * uniPrice :=
    mul_nonneg (div_nonneg (Nat.cast_nonneg _) (by norm_num)) hup
  have hB : 0 ≤ (BASE_GAS_COST : ℚ) * (gasPrice / 10 ^ 9) * ethPriceOf jarTokens :=
    mul_nonneg (mul_nonneg (Nat.cast_nonneg _) (div_nonneg hg (by norm_num)))
      (ethPriceOf_nonneg _ hpx)
  refine ⟨?_, ?_, hnet, ?_⟩
  · rw [calculateProfit_totalJarValueUSD, hfil]
    rfl
  · rw [calculateProfit_grossProfit, hfil]
    simp
  · rw [calculateProfit_isProfitable]
    rw [decide_eq_false]
    rw [hnet]
    push_neg
    linarith

/-- Witness for C6 at a concrete input: burning one whole resource token at
5 dollars against an empty jar with zero gas price yields no value, a net
loss of 5 dollars, and `isProfitable = false`. -/
theorem c6_empty_claimable_witness :
    ((calculateProfit (10 ^ 18) 5 [] 0 0).totalJarValueUSD = 0)
      ∧ ((calculateProfit (10 ^ 18) 5 [] 0 0).netProfit = -5)
      ∧ ((calculateProfit (10 ^ 18) 5 [] 0 0).isProfitable = false) := by
  have h := c6_empty_claimable (10 ^ 18) 5 [] 0 0 rfl (by norm_num) le_rfl
    (by simp)
  refine ⟨h.1, ?_, h.2.2.2⟩
  rw [h.2.2.1]
  norm_num [ethPriceOf]

/-- C7: a token whose price is 0 (or missing, normalized to 0 upstream) has
`valueUsd = 0` and is always classified as dust, regardless of its balance,
on any valid input (non-negative gas price and token prices). -/
theorem c7_zero_price_dust (uniAmount : ℕ) (uniPrice : ℚ)
    (jarTokens : List Token) (threshold : ℕ) (gasPrice : ℚ) (t : Token)
    (ht : t ∈ jarTokens) (hzero : t.price = 0) (hg : 0 ≤ gasPrice)
    (hpx : ∀ x ∈ jarTokens, 0 ≤ x.price) :
    valueUSDOf t = 0
      ∧ t ∈ ((calculateProfit uniAmount uniPrice jarTokens threshold
          gasPrice).dustTokens.map DustToken.token)
      ∧ t ∉ ((calculateProfit uniAmount uniPrice jarTokens threshold
          gasPrice).tokenBreakdown.map OptimalToken.token) := by
  have hv : valueUSDOf t = 0 := by
    unfold valueUSDOf
    rw [hzero, mul_zero]
  have hnot : ¬(valueUSDOf t > transferCostUSDOf jarTokens gasPrice) := by
    rw [hv]
    exact not_lt.mpr (transferCostUSDOf_nonneg jarTokens gasPrice hg hpx)
  refine ⟨hv, ?_, ?_⟩
  · rw [calculateProfit_dustTokens, filterTokens_dust_map]
    simp only [List.mem_filter, decide_eq_true_eq]
    exact ⟨ht, by simpa using hnot⟩
  · rw [calculateProfit_tokenBreakdown, filterTokens_opt_map]
    simp only [List.mem_filter, decide_eq_true_eq]
    intro hcontra
    exact hnot hcontra.2

/-- Witness for C7 at a concrete input: a zero-priced token with a huge
balance lands in dust and not in the claimable breakdown. -/
theorem c7_zero_price_dust_witness :
    valueUSDOf sampleZeroPrice = 0
      ∧ sampleZeroPrice ∈ ((calculateProfit 0 0 [sampleZeroPrice] 0
          20).dustTokens.map DustToken.token)
      ∧ sampleZeroPrice ∉ ((calculateProfit 0 0 [sampleZeroPrice] 0
          20).tokenBreakdown.map OptimalToken.token) :=
  c7_zero_price_dust 0 0 [sampleZeroPrice] 0 20 sampleZeroPrice (by simp) rfl
    (by norm_num) (by simp [sampleZeroPrice])

/-- C8: the formatter maps each USD amount to a 2-decimal string prefixed
with the currency symbol, the percentage to a 2-decimal string suffixed with
a percent sign, each breakdown token balance to a 6-decimal string without
symbol, reduces the breakdown to address/symbol/balance/valueUSD entries,
and sets `filtered` to true iff `dustCount > 0`. -/
theorem c8_formatting (p : ProfitResult) :
    ((formatProfitData p).uniAmount = jsToFixed 2 p.uniAmount)
      ∧ ((formatProfitData p).uniCostUSD = "$" ++ jsToFixed 2 p.uniCostUSD)
      ∧ ((formatProfitData p).totalJarValueUSD
          = "$" ++ jsToFixed 2 p.totalJarValueUSD)
      ∧ ((formatProfitData p).gasCostUSD = "$" ++ jsToFixed 2 p.gasCostUSD)
      ∧ ((formatProfitData p).grossProfit = "$" ++ jsToFixed 2 p.grossProfit)
      ∧ ((formatProfitData p).netProfit = "$" ++ jsToFixed 2 p.netProfit)
      ∧ ((formatProfitData p).profitPercentage
          = jsToFixed 2 p.profitPercentage ++ "%")
      ∧ ((formatProfitData p).minimumOutputUSD
          = "$" ++ jsToFixed 2 p.minimumOutputUSD)
      ∧ ((formatProfitData p).isProfitable = p.isProfitable)
      ∧ ((formatProfitData p).meetsThreshold = p.meetsThreshold)
      ∧ ((formatProfitData p).tokenBreakdown
          = p.tokenBreakdown.map fun t =>
              ⟨t.token.address, t.token.symbol, jsToFixed 6 t.balanceEth,
                "$" ++ jsToFixed 2 t.valueUSD⟩)
      ∧ ((formatProfitData p).dustCount = p.filteredCount)
      ∧ ((formatProfitData p).savedGas = "$" ++ jsToFixed 2 p.savedGasUSD)
      ∧ ((formatProfitData p).filtered = true ↔ p.filteredCount > 0) := by
  refine ⟨rfl, rfl, rfl, rfl, rfl, rfl, rfl, rfl, rfl, rfl, rfl, rfl, rfl, ?_⟩
  simp [formatProfitData]

/-- C9: the ETH USD price is not a separate input of `calculateProfit`: it
is read from the `price` field of the first input token whose symbol is
WETH, with the hardcoded constant 2000 substituted when no WETH token is
present or its price is falsy, and this derived price is the one entering
the per-transfer and total gas-cost computations. -/
theorem c9_eth_price_source (jarTokens : List Token) :
    (∀ t : Token, jarTokens.find? (fun x => x.symbol == "WETH") = some t →
        t.price ≠ 0 → ethPriceOf jarTokens = t.price)
      ∧ (∀ t : Token, jarTokens.find? (fun x => x.symbol == "WETH") = some t →
          t.price = 0 → ethPriceOf jarTokens = 2000)
      ∧ (jarTokens.find? (fun x => x.symbol == "WETH") = none →
          ethPriceOf jarTokens = 2000)
      ∧ ∀ (u : ℕ) (p : ℚ) (th : ℕ) (g : ℚ),
          ((calculateProfit u p jarTokens th g).gasCostUSD
            = ((calculateProfit u p jarTokens th g).estimatedGas : ℚ) * g
              / 10 ^ 9 * ethPriceOf jarTokens)
          ∧ ((calculateProfit u p jarTokens th g).savedGasUSD
            = ((calculateProfit u p jarTokens th g).dustTokens.length : ℚ)
              * transferCostUSDOf jarTokens g) := by
  refine ⟨?_, ?_, ?_, fun u p th g => ⟨rfl, rfl⟩⟩
  · intro t hf hne
    unfold ethPriceOf
    rw [hf]
    simp [hne]
  · intro t hf hz
    unfold ethPriceOf
    rw [hf]
    simp [hz]
  · intro hf
    unfold ethPriceOf
    rw [hf]

/-- Witness for C9 at concrete inputs: with a WETH token of price 3 the
engine uses 3; with no WETH token it falls back to 2000. -/
theorem c9_eth_price_source_witness :
    ethPriceOf [sampleWETH 3, sampleUSDC] = (sampleWETH 3).price
      ∧ ethPriceOf [sampleUSDC] = 2000 :=
  ⟨(c9_eth_price_source [sampleWETH 3, sampleUSDC]).1 (sampleWETH 3) rfl
      (by norm_num [sampleWETH]),
    (c9_eth_price_source [sampleUSDC]).2.2.1 rfl⟩

/-- C10: a token whose `decimals` field is 0 (or missing, normalized to 0)
has its whole-unit balance computed as if it had 18 decimals — the
`token.decimals || 18` default — so its balance and value are scaled down by
`10^18`. -/
theorem c10_zero_decimals (t : Token) (h : t.decimals = 0) :
    balanceEthOf t = (t.balance : ℚ) / 10 ^ 18
      ∧ valueUSDOf t = (t.balance : ℚ) / 10 ^ 18 * t.price := by
  unfold valueUSDOf balanceEthOf
  rw [h]
  simp

/-- Witness for C10 at a concrete input: the two-unit zero-decimals sample
token is valued as `2 / 10^18` whole units. -/
theorem c10_zero_decimals_witness :
    balanceEthOf sampleZeroDec = (sampleZeroDec.balance : ℚ) / 10 ^ 18
      ∧ valueUSDOf sampleZeroDec
        = (sampleZeroDec.balance : ℚ) / 10 ^ 18 * sampleZeroDec.price :=
  c10_zero_decimals sampleZeroDec rfl
